import Mathlib

/-
  Verification of the Manuscriptify frontend (HYDRASKRIPT repository).

  Shallow embedding of the client-side logic that the specification
  describes: the ProgressTracker polling component, the App session
  store, the ProjectCreator submit/upload handlers, and the
  ProjectEditor initialization, together with the projects-table
  genre constraint from the SQL schema.

  Conventions: JavaScript strings are Lean String; a missing / null /
  empty JS value that is only ever tested for truthiness is modelled
  as the empty string or as Option; machine timestamps are Nat
  milliseconds.
-/

namespace Manuscriptify

/-! ## Progress Tracker (components/ProgressTracker.js) -/

/-- One step record of a progress snapshot, as rendered by the tracker. -/
structure StepRec where
  step_name : String
  status : String
  message : String
  timestamp : String
deriving DecidableEq

/-- The progress snapshot JSON returned by GET /api/progress/ for a project
(data model section 3 of the spec); overall_progress is the raw number the
server reports, carried as an integer with no range restriction because the
client performs none. -/
structure Snapshot where
  overall_progress : Int
  current_step : String
  steps : List StepRec
deriving DecidableEq

/-- Outcome of one fetch of the progress endpoint: the parsed response body
on success, or the HTTP status (when a response exists) on failure. -/
inductive FetchResult where
  | success (data : Snapshot)
  | failure (status : Option Nat)
deriving DecidableEq

/-- Delay in milliseconds of the navigation timeout scheduled when a poll
reports 100 percent (ProgressTracker.js line 28-30). -/
def navDelayMs : Nat := 2000

/-- Period in milliseconds of the polling interval
(ProgressTracker.js line 16). -/
def pollIntervalMs : Nat := 2000

/-- Component state of the ProgressTracker that the fetch handler touches:
the progress and error useState cells, the loading flag, and the list of
delays of the navigation timeouts scheduled so far. -/
structure TrackerState where
  progress : Option Snapshot
  error : Option String
  loading : Bool
  scheduledNavs : List Nat
deriving DecidableEq

/-- State right after mount (ProgressTracker.js lines 9-11): no snapshot,
no error, loading, no navigation scheduled. -/
def initState : TrackerState :=
  { progress := none, error := none, loading := true, scheduledNavs := [] }

/-- The body of fetchProgress (ProgressTracker.js lines 21-41) applied to
one settled fetch: on success it stores the snapshot, clears the error and,
when overall_progress equals 100, schedules one navigation timeout of
navDelayMs; on failure it sets the 404-specific or the generic error
message; the finally clause clears loading in both cases. -/
def handleFetchResult (s : TrackerState) (r : FetchResult) : TrackerState :=
  match r with
  | FetchResult.success d =>
      { progress := some d
        error := none
        loading := false
        scheduledNavs :=
          s.scheduledNavs ++ (if d.overall_progress = 100 then [navDelayMs] else []) }
  | FetchResult.failure st =>
      { s with
        error := some (if st = some 404 then
            "Progress tracking not found for this project"
          else
            "Failed to fetch progress")
        loading := false }

/-- The tracker state after a sequence of fetch results has settled, in
order, before the component is torn down. -/
def runTracker (s : TrackerState) (rs : List FetchResult) : TrackerState :=
  rs.foldl handleFetchResult s

/-- Whether a fetch result is a success whose snapshot reports exactly
100 percent. -/
def is100 : FetchResult → Bool
  | FetchResult.success d => d.overall_progress = 100
  | FetchResult.failure _ => false

/-- Times (ms after mount) at which the setInterval of the mount effect
(ProgressTracker.js line 16) fires before clearInterval runs at unmount:
the positive multiples of pollIntervalMs strictly below the unmount time. -/
def intervalTicks (unmountMs : Nat) : List Nat :=
  ((List.range (unmountMs / pollIntervalMs)).map (fun k => (k + 1) * pollIntervalMs)).filter
    (fun t => t < unmountMs)

/-- Times (ms after mount) at which fetchProgress is invoked for a tracker
mounted with the given route parameter and unmounted at unmountMs
(ProgressTracker.js lines 13-19): nothing without a projectId; otherwise
one immediate call at mount followed by the interval ticks. -/
def fetchTimes (projectId : Option String) (unmountMs : Nat) : List Nat :=
  match projectId with
  | none => []
  | some _ => 0 :: intervalTicks unmountMs

/-- Percentage figure the tracker renders (ProgressTracker.js line 110):
the JS expression progress?.overall_progress || 0. -/
def displayedPercent (p : Option Snapshot) : Int :=
  match p with
  | none => 0
  | some s => if s.overall_progress = 0 then 0 else s.overall_progress

/-- Width percentage of the progress bar (ProgressTracker.js line 120):
the same JS expression progress?.overall_progress || 0, written a second
time in the source. -/
def barWidthPercent (p : Option Snapshot) : Int :=
  match p with
  | none => 0
  | some s => if s.overall_progress = 0 then 0 else s.overall_progress

/-- A snapshot reporting exactly 100 percent. -/
def snap100 : Snapshot := { overall_progress := 100, current_step := "Finalizing", steps := [] }

/-- A snapshot reporting 50 percent. -/
def snap50 : Snapshot := { overall_progress := 50, current_step := "Generating chapters", steps := [] }

/-- A snapshot whose reported percentage lies outside the range 0-100. -/
def snapOver : Snapshot := { overall_progress := 150, current_step := "step", steps := [] }

/-! ## Session store (App.js) -/

/-- The user record returned by the auth endpoints and handed to login;
only the fields the session logic reads are carried. An absent bearer
token is modelled as the empty string, the one falsy string value. -/
structure User where
  access_token : String
  email : String
deriving DecidableEq

/-- The session-relevant application state: the user useState cell, the
manuscriptify_user local-storage key (the one persisted key), and the
axios default Authorization header. -/
structure AppSession where
  user : Option User
  storedUser : Option User
  authHeader : Option String
deriving DecidableEq

/-- handleLogin of App.js (lines 45-53): store the record in state and in
local storage, and set the default Authorization header to the bearer
token when the record carries a truthy access_token. -/
def handleLogin (s : AppSession) (u : User) : AppSession :=
  { user := some u
    storedUser := some u
    authHeader :=
      if u.access_token = "" then s.authHeader
      else some ("Bearer " ++ u.access_token) }

/-- handleLogout of App.js (lines 55-60): clear the user, remove the
stored record, delete the Authorization header. -/
def handleLogout (_s : AppSession) : AppSession :=
  { user := none, storedUser := none, authHeader := none }

/-- The mount effect of App.js (lines 31-43) run against the persisted
local-storage content: restore the saved user and set the Authorization
header when the restored record carries a truthy access_token; with no
saved record the session starts empty. -/
def appStart (stored : Option User) : AppSession :=
  match stored with
  | none => { user := none, storedUser := none, authHeader := none }
  | some u =>
      { user := some u
        storedUser := some u
        authHeader :=
          if u.access_token = "" then none
          else some ("Bearer " ++ u.access_token) }

/-- Authorization header a subsequent axios request carries: exactly the
configured default header. -/
def requestAuthHeader (s : AppSession) : Option String := s.authHeader

/-! ## Project Creator submit flow (ProjectCreator, src/unnamed/part_001) -/

/-- The two tabs of the creator form. -/
inductive Tab where
  | prompt
  | upload
deriving DecidableEq

/-- The formData state of ProjectCreator (part_001 lines 14-24). -/
structure Form where
  title : String
  author : String
  description : String
  genre : String
  target_language : String
  content : String
  prompt : String
  length : String
  style : String
deriving DecidableEq

/-- The uploadedFile state: the JSON returned by POST /api/files/upload. -/
structure UploadedFile where
  filename : String
  extracted_text : String
  word_count : Nat
  file_size : Nat
deriving DecidableEq

/-- Endpoint of the project-creation request. -/
def projectCreateCall : String := "POST /api/projects"

/-- Endpoint of the generation-trigger request. -/
def generateBookCall : String := "POST /api/ai/generate-book"

/-- Result of one submit: either a client-side rejection with a toast
message and no network traffic, or a successful submission listing the
network calls issued in order and the route navigated to. -/
inductive SubmitOutcome where
  | rejected (message : String)
  | submitted (calls : List String) (nav : String)
deriving DecidableEq

/-- Network calls an outcome performed. -/
def networkCalls : SubmitOutcome → List String
  | SubmitOutcome.rejected _ => []
  | SubmitOutcome.submitted cs _ => cs

/-- Models the JS string trim method used by the validation checks: strip
leading and trailing whitespace characters from both ends. -/
def jsTrim (s : String) : String :=
  String.mk (((s.data.dropWhile Char.isWhitespace).reverse.dropWhile Char.isWhitespace).reverse)

/-- The client-side validation at the top of handleSubmit (part_001 lines
133-152): empty trimmed title is rejected first; then the audiobook
prompt-tab case requires an uploaded file or a non-empty prompt, any
other prompt-tab case requires a non-empty prompt; finally the upload
tab requires non-empty content. Returns the toast message of the first
failing check. -/
def validateSubmit (f : Form) (tab : Tab) (up : Option UploadedFile) : Option String :=
  if jsTrim f.title = "" then some "Please enter a project title"
  else
    let first :=
      if f.genre = "audiobook" ∧ tab = Tab.prompt then
        if up = none ∧ jsTrim f.prompt = "" then
          some "Please either upload a manuscript or enter a prompt for your audiobook"
        else none
      else if tab = Tab.prompt ∧ jsTrim f.prompt = "" then
        some "Please enter a prompt for book generation"
      else none
    match first with
    | some m => some m
    | none =>
        if tab = Tab.upload ∧ jsTrim f.content = "" then
          some "Please upload a file or enter content"
        else none

/-- handleSubmit of ProjectCreator (part_001 lines 130-196) on the success
path: after validation it always posts the project record; for the prompt
tab, or the upload tab with genre audiobook, it then posts the generation
request and navigates to the progress route for the returned project id;
otherwise it navigates straight to the editor route. The projectId
argument is the id the create call returned. -/
def handleSubmit (f : Form) (tab : Tab) (up : Option UploadedFile)
    (projectId : String) : SubmitOutcome :=
  match validateSubmit f tab up with
  | some m => SubmitOutcome.rejected m
  | none =>
      if tab = Tab.prompt ∨ (tab = Tab.upload ∧ f.genre = "audiobook") then
        SubmitOutcome.submitted [projectCreateCall, generateBookCall]
          ("/progress/" ++ projectId)
      else
        SubmitOutcome.submitted [projectCreateCall] ("/project/" ++ projectId)

/-! ## File upload zone (ProjectCreator, src/unnamed/part_001 lines 80-120) -/

/-- A file offered to the drop zone: name, size in bytes, MIME type. -/
structure JsFile where
  name : String
  size : Nat
  mimeType : String
deriving DecidableEq

/-- Size cap of the drop zone configuration (part_001 line 118). -/
def uploadMaxSize : Nat := 25 * 1024 * 1024

/-- Whether a MIME type is among the accept keys of the drop zone
configuration (part_001 lines 113-117): plain text, PDF, or the DOCX
word-processor type. -/
def acceptedMime (m : String) : Bool :=
  m = "text/plain" || m = "application/pdf" ||
    m = "application/vnd.openxmlformats-officedocument.wordprocessingml.document"

/-- Models the file filter the react-dropzone library applies for the
accept and maxSize options configured in useDropzone (part_001 lines
111-120), per the library contract: a file reaches onDrop as accepted
exactly when its MIME type matches an accept key and its size does not
exceed maxSize. -/
def dropzoneAccepts (f : JsFile) : Bool :=
  acceptedMime f.mimeType && decide (f.size ≤ uploadMaxSize)

/-- Endpoint of the upload request. -/
def fileUploadCall : String := "POST /api/files/upload"

/-- Network calls of onDrop (part_001 lines 80-109): with no accepted file
it returns immediately; with one it posts the multipart upload. -/
def onDropCalls : List JsFile → List String
  | [] => []
  | _ :: _ => [fileUploadCall]

/-- Network calls caused by offering one file to the drop zone: the
configured filter screens the file, then onDrop runs on the accepted
list. -/
def dropPipeline (f : JsFile) : List String :=
  onDropCalls (if dropzoneAccepts f then [f] else [])

/-! ## Genre enumeration (part_001 genreConfig, part_002 projects table) -/

/-- Keys of the genreConfig object of ProjectCreator (part_001 lines
28-69): the genres the creator form offers and submits. -/
def creatorGenres : List String :=
  ["ebook", "novel", "kids_story", "coloring_book", "audiobook"]

/-- The CHECK constraint on the genre column of the projects table in the
SQL schema (part_002 line 131). -/
def projectsGenreCheck (g : String) : Bool :=
  g = "ebook" || g = "novel" || g = "kids_story" || g = "coloring_book"

/-! ## Creation error normalization (part_001 lines 198-221) -/

/-- A JS object appearing as one element of a validation-error array: an
optional msg field, an optional loc array, and its JSON serialization
used when the msg field is falsy. -/
structure JsErrObj where
  msg : Option String
  loc : Option (List String)
  stringified : String
deriving DecidableEq

/-- One element of a detail array: a plain string or an object. -/
inductive DetailItem where
  | str (s : String)
  | obj (o : JsErrObj)
deriving DecidableEq

/-- The per-element normalization inside the array branch (part_001 lines
209-213): a string element stands for itself; an object with a truthy msg
renders as the dot-joined loc prefix (when a loc array is present)
followed by the msg; any other object renders as its JSON serialization. -/
def detailItemToString : DetailItem → String
  | DetailItem.str s => s
  | DetailItem.obj o =>
      match o.msg with
      | some m =>
          if m = "" then o.stringified
          else
            (match o.loc with
             | some l => String.intercalate "." l ++ ": "
             | none => "") ++ m
      | none => o.stringified

/-- The shape of the detail field of an error payload: a plain string, an
array of items, or an arbitrary object carried by its serialization. -/
inductive ErrDetail where
  | str (s : String)
  | arr (items : List DetailItem)
  | obj (stringified : String)
deriving DecidableEq

/-- Default message when no usable detail is present. -/
def defaultCreateError : String := "Failed to create project"

/-- The catch clause of handleSubmit (part_001 lines 198-221): a missing
or falsy detail (including the empty string) yields the default message; a
non-empty string stands for itself; an array joins its normalized elements
with a comma; any other object yields its JSON serialization. -/
def extractDetailMessage : Option ErrDetail → String
  | none => defaultCreateError
  | some (ErrDetail.str s) => if s = "" then defaultCreateError else s
  | some (ErrDetail.arr items) =>
      String.intercalate ", " (items.map detailItemToString)
  | some (ErrDetail.obj st) => st

/-! ## Project Editor initialization (src/unnamed/part_004 lines 156-172) -/

/-- The project record fetched by the editor; the two text bodies are
modelled as strings where the empty string stands for the absent, null
and empty cases alike, all falsy in the JS fallback chain. -/
structure ProjectRecord where
  title : String
  author : String
  description : String
  generated_content : String
  content : String
deriving DecidableEq

/-- Initialization of the editable content cell in fetchProject (part_004
line 162): the JS expression generated_content || content || ''. -/
def initEditorContent (p : ProjectRecord) : String :=
  if p.generated_content = "" then
    (if p.content = "" then "" else p.content)
  else p.generated_content

/-! ## Helper lemmas -/

/-- The scheduled navigations after a run are those already scheduled
followed by one entry of navDelayMs per 100-percent success response. -/
theorem runTracker_scheduledNavs (s : TrackerState) (rs : List FetchResult) :
    (runTracker s rs).scheduledNavs =
      s.scheduledNavs ++ List.replicate (rs.countP is100) navDelayMs := by
  induction rs generalizing s with
  | nil => simp [runTracker]
  | cons r rs ih =>
    have h : runTracker s (r :: rs) = runTracker (handleFetchResult s r) rs := rfl
    rw [h, ih]
    cases r with
    | success d =>
      by_cases h100 : d.overall_progress = 100 <;>
        simp [handleFetchResult, is100, h100, List.countP_cons, List.replicate_succ,
          List.append_assoc]
    | failure st =>
      simp [handleFetchResult, is100, List.countP_cons]

/-- Membership in the interval tick list: exactly the positive multiples
of the poll period below the unmount time. -/
theorem mem_intervalTicks (u t : Nat) :
    t ∈ intervalTicks u ↔ 0 < t ∧ t % pollIntervalMs = 0 ∧ t < u := by
  simp only [intervalTicks, pollIntervalMs, List.mem_filter, List.mem_map, List.mem_range,
    decide_eq_true_eq]
  constructor
  · rintro ⟨⟨k, hk, rfl⟩, hlt⟩
    omega
  · rintro ⟨hpos, hmod, hlt⟩
    exact ⟨⟨t / 2000 - 1, by omega, by omega⟩, hlt⟩

/-- The interval tick list has no duplicate entries. -/
theorem intervalTicks_nodup (u : Nat) : (intervalTicks u).Nodup := by
  unfold intervalTicks
  refine List.Nodup.filter _ (List.Nodup.map ?_ (List.nodup_range _))
  intro a b hab
  simp only [pollIntervalMs] at hab
  omega

/-! ## Claim theorems -/

/-- C1 counterexample: two poll responses that both report 100 percent
(realizable, since the poll period and the navigation delay are both
2000 ms, so the next tick can settle before the first timeout fires and
no guard suppresses it) schedule two navigation timeouts, not exactly
one as the claim states. -/
theorem C1_two_full_responses_schedule_two_navs :
    (runTracker initState
      [FetchResult.success snap100, FetchResult.success snap100]).scheduledNavs.length = 2 ∧
    (runTracker initState
      [FetchResult.success snap100, FetchResult.success snap100]).scheduledNavs.length ≠ 1 := by
  decide

/-- C1 amended: every poll response with overall_progress equal to 100
schedules one navigation timeout with the fixed 2000 ms delay, so a run
schedules exactly as many navigations as it settles 100-percent
responses, each with that delay; with a single such response this is one
navigation after 2 seconds. -/
theorem C1_nav_scheduled_per_full_response (rs : List FetchResult) :
    (runTracker initState rs).scheduledNavs =
      List.replicate (rs.countP is100) navDelayMs := by
  simpa [initState] using runTracker_scheduledNavs initState rs

/-- C2: a tracker mounted without a project identifier never fetches; with
one, the first fetch is at mount (time 0), the remaining fetch times are
exactly the positive multiples of the 2000 ms poll period that lie before
the unmount time (so the interval is cancelled at unmount), and no
scheduled time occurs twice. -/
theorem C2_poll_schedule (id : String) (u : Nat) :
    fetchTimes none u = [] ∧
    (fetchTimes (some id) u).head? = some 0 ∧
    (∀ t, t ∈ fetchTimes (some id) u ↔
      (t = 0 ∨ (0 < t ∧ t % pollIntervalMs = 0 ∧ t < u))) ∧
    (fetchTimes (some id) u).Nodup := by
  refine ⟨rfl, rfl, ?_, ?_⟩
  · intro t
    simp [fetchTimes, mem_intervalTicks]
  · simp only [fetchTimes]
    refine List.nodup_cons.mpr ⟨fun h0 => ?_, intervalTicks_nodup u⟩
    have := (mem_intervalTicks u 0).mp h0
    omega

/-- C2 witness: concrete evaluation for a tracker unmounted at 5000 ms,
whose fetches happen at 0, 2000 and 4000 ms. -/
theorem C2_witness :
    2000 ∈ fetchTimes (some "p1") 5000 ∧ (fetchTimes (some "p1") 5000).Nodup :=
  ⟨((C2_poll_schedule "p1" 5000).2.2.1 2000).mpr (by decide),
   (C2_poll_schedule "p1" 5000).2.2.2⟩

/-- C3 counterexample: after a 404 failure the tracker shows the tracking
not found message, but a later successful poll clears the error and
restores the normal progress view, so the state is exited without any
manual navigation; it is not terminal. -/
theorem C3_not_found_state_cleared_by_later_success :
    (runTracker initState [FetchResult.failure (some 404)]).error =
      some "Progress tracking not found for this project" ∧
    (runTracker initState
      [FetchResult.failure (some 404), FetchResult.success snap50]).error = none ∧
    (runTracker initState
      [FetchResult.failure (some 404), FetchResult.success snap50]).progress = some snap50 :=
  ⟨rfl, rfl, rfl⟩

/-- C3 amended: a failed fetch with status 404 sets the tracking not found
message and any other failure sets the generic message; a failure leaves
the last snapshot and the scheduled navigations untouched, and a
subsequent successful poll clears the error, so both failure kinds are
transient while the poll schedule (a function of mount parameters alone,
see fetchTimes) keeps running until unmount. -/
theorem C3_error_policy (s : TrackerState) (st : Option Nat) (d : Snapshot) :
    (handleFetchResult s (FetchResult.failure st)).error =
      some (if st = some 404 then "Progress tracking not found for this project"
        else "Failed to fetch progress") ∧
    (handleFetchResult s (FetchResult.failure st)).progress = s.progress ∧
    (handleFetchResult s (FetchResult.failure st)).scheduledNavs = s.scheduledNavs ∧
    (handleFetchResult s (FetchResult.success d)).error = none :=
  ⟨rfl, rfl, rfl, rfl⟩

/-- C4 counterexample: a snapshot reporting 150 renders as 150 percent,
outside the interval 0 to 100, because the component applies no clamp. -/
theorem C4_out_of_range_percent_rendered_unclamped :
    displayedPercent (some snapOver) = 150 ∧ ¬ displayedPercent (some snapOver) ≤ 100 := by
  decide

/-- C4 amended: the rendered percentage equals the raw overall_progress of
the snapshot with no clamping (0 when the snapshot is missing), and the
progress bar width always equals the rendered percentage exactly. -/
theorem C4_bar_width_matches_raw_percent :
    (∀ p, barWidthPercent p = displayedPercent p) ∧
    displayedPercent none = 0 ∧
    (∀ s, displayedPercent (some s) = s.overall_progress) := by
  refine ⟨fun p => rfl, rfl, fun s => ?_⟩
  by_cases h : s.overall_progress = 0 <;> simp [displayedPercent, h]

/-- C5: login stores the record under the single local-storage key and
configures the bearer header for subsequent requests; restarting the
application from that stored record restores the authenticated user with
the same header; logout removes the stored record and leaves subsequent
requests with no Authorization header. -/
theorem C5_session_lifecycle (u : User) (s s2 : AppSession)
    (h : u.access_token ≠ "") :
    (handleLogin s u).storedUser = some u ∧
    requestAuthHeader (handleLogin s u) = some ("Bearer " ++ u.access_token) ∧
    (appStart (handleLogin s u).storedUser).user = some u ∧
    requestAuthHeader (appStart (handleLogin s u).storedUser) =
      some ("Bearer " ++ u.access_token) ∧
    (handleLogout s2).storedUser = none ∧
    requestAuthHeader (handleLogout s2) = none := by
  refine ⟨rfl, ?_, ?_, ?_, rfl, rfl⟩ <;>
    simp [handleLogin, appStart, requestAuthHeader, h]

/-- C5 witness: the concrete session of the spec example, token t and
email a b.com, evaluated through login, restart and logout. -/
theorem C5_witness :
    requestAuthHeader (handleLogin (appStart none) ⟨"t", "a@b.com"⟩) =
      some ("Bearer " ++ "t") ∧
    requestAuthHeader (appStart (handleLogin (appStart none) ⟨"t", "a@b.com"⟩).storedUser) =
      some ("Bearer " ++ "t") ∧
    requestAuthHeader (handleLogout (handleLogin (appStart none) ⟨"t", "a@b.com"⟩)) = none := by
  have h := C5_session_lifecycle ⟨"t", "a@b.com"⟩ (appStart none)
    (handleLogin (appStart none) ⟨"t", "a@b.com"⟩) (by decide)
  exact ⟨h.2.1, h.2.2.2.1, h.2.2.2.2.2⟩

/-- C6: a submission whose trimmed title is empty is rejected client-side
with no network call; a prompt-tab submission with a non-empty title and a
non-empty trimmed prompt issues exactly the create call followed by the
generate call and navigates to the progress route of the returned project
id, for every genre and uploaded-file state. -/
theorem C6_create_flow (f : Form) (tab : Tab) (up : Option UploadedFile)
    (pid : String) :
    (jsTrim f.title = "" →
      handleSubmit f tab up pid = SubmitOutcome.rejected "Please enter a project title" ∧
      networkCalls (handleSubmit f tab up pid) = []) ∧
    (jsTrim f.title ≠ "" → jsTrim f.prompt ≠ "" →
      handleSubmit f Tab.prompt up pid =
        SubmitOutcome.submitted [projectCreateCall, generateBookCall]
          ("/progress/" ++ pid)) := by
  constructor
  · intro h
    simp [handleSubmit, validateSubmit, h, networkCalls]
  · intro h1 h2
    by_cases hg : f.genre = "audiobook" <;>
      simp [handleSubmit, validateSubmit, h1, h2, hg]

/-- C6 witness: a whitespace title is rejected without network calls, and
a well-formed prompt-flow submission issues create then generate and lands
on the progress route. -/
theorem C6_witness :
    networkCalls (handleSubmit
      ⟨"   ", "", "", "ebook", "en", "", "a prompt", "medium", "engaging"⟩
      Tab.prompt none "p1") = [] ∧
    handleSubmit
      ⟨"My Book", "Ann", "", "novel", "en", "", "A quiet village", "medium", "engaging"⟩
      Tab.prompt none "p2" =
      SubmitOutcome.submitted [projectCreateCall, generateBookCall] ("/progress/" ++ "p2") :=
  ⟨((C6_create_flow
      ⟨"   ", "", "", "ebook", "en", "", "a prompt", "medium", "engaging"⟩
      Tab.prompt none "p1").1 (by decide)).2,
   (C6_create_flow
      ⟨"My Book", "Ann", "", "novel", "en", "", "A quiet village", "medium", "engaging"⟩
      Tab.prompt none "p2").2 (by decide) (by decide)⟩

/-- C7: a file over the 25 MB cap or with a MIME type outside the accept
set never reaches the upload request (the drop pipeline issues no call);
an accepted file issues exactly the single upload call. -/
theorem C7_upload_gate (f : JsFile) :
    ((uploadMaxSize < f.size ∨ acceptedMime f.mimeType = false) →
      dropPipeline f = []) ∧
    (f.size ≤ uploadMaxSize → acceptedMime f.mimeType = true →
      dropPipeline f = [fileUploadCall]) := by
  constructor
  · rintro (hsize | htype)
    · have hns : ¬ f.size ≤ uploadMaxSize := Nat.not_le.mpr hsize
      simp [dropPipeline, dropzoneAccepts, onDropCalls, hns]
    · simp [dropPipeline, dropzoneAccepts, onDropCalls, htype]
  · intro h1 h2
    simp [dropPipeline, dropzoneAccepts, onDropCalls, h1, h2]

/-- C7 witness: a 26 MB text file is dropped without any network call,
while a small text file triggers exactly the upload call. -/
theorem C7_witness :
    dropPipeline ⟨"big.txt", 26 * 1024 * 1024, "text/plain"⟩ = [] ∧
    dropPipeline ⟨"notes.txt", 2048, "text/plain"⟩ = [fileUploadCall] :=
  ⟨(C7_upload_gate ⟨"big.txt", 26 * 1024 * 1024, "text/plain"⟩).1 (Or.inl (by decide)),
   (C7_upload_gate ⟨"notes.txt", 2048, "text/plain"⟩).2 (by decide) (by decide)⟩

/-- C8: the creator form offers the genre audiobook, but the CHECK
constraint of the projects table rejects it; of the five creator genres
only the other four pass the store constraint, so a submitted audiobook
project cannot be persisted as such. -/
theorem C8_audiobook_fails_store_constraint :
    "audiobook" ∈ creatorGenres ∧
    projectsGenreCheck "audiobook" = false ∧
    creatorGenres.filter (fun g => projectsGenreCheck g) =
      ["ebook", "novel", "kids_story", "coloring_book"] := by
  decide

/-- C9: the catch clause maps every shape of the detail field to exactly
one display string: a missing detail yields the fixed default message, a
non-empty string stands for itself, an arbitrary object yields its JSON
serialization, an array joins its normalized elements with a comma, and an
array element that is an object with a truthy msg renders the dot-joined
loc prefix followed by the msg while one without a msg falls back to its
serialization. -/
theorem C9_detail_normalization :
    extractDetailMessage none = defaultCreateError ∧
    (∀ s, s ≠ "" → extractDetailMessage (some (ErrDetail.str s)) = s) ∧
    (∀ st, extractDetailMessage (some (ErrDetail.obj st)) = st) ∧
    (∀ items, extractDetailMessage (some (ErrDetail.arr items)) =
      String.intercalate ", " (items.map detailItemToString)) ∧
    (∀ (st m : String) (l : List String), m ≠ "" →
      detailItemToString (DetailItem.obj ⟨some m, some l, st⟩) =
        String.intercalate "." l ++ ": " ++ m) ∧
    (∀ st, detailItemToString (DetailItem.obj ⟨none, none, st⟩) = st) := by
  refine ⟨rfl, fun s hs => ?_, fun st => rfl, fun items => rfl,
    fun st m l hm => ?_, fun st => rfl⟩
  · simp [extractDetailMessage, hs]
  · simp [detailItemToString, hm]

/-- C9 witness: a plain-string detail and a field-level error object,
both normalized at concrete inputs. -/
theorem C9_witness :
    extractDetailMessage (some (ErrDetail.str "Invalid request")) = "Invalid request" ∧
    detailItemToString (DetailItem.obj ⟨some "field required", some ["body", "title"], "x"⟩) =
      String.intercalate "." ["body", "title"] ++ ": " ++ "field required" :=
  ⟨C9_detail_normalization.2.1 "Invalid request" (by decide),
   C9_detail_normalization.2.2.2.2.1 "x" "field required" ["body", "title"] (by decide)⟩

/-- C10: the editable content of the editor is initialized to the
generated body when that is non-empty, otherwise to the original body
when that is non-empty, otherwise to the empty string; the generated body
takes precedence whenever present. -/
theorem C10_editor_content_init (p : ProjectRecord) :
    (p.generated_content ≠ "" → initEditorContent p = p.generated_content) ∧
    (p.generated_content = "" → p.content ≠ "" → initEditorContent p = p.content) ∧
    (p.generated_content = "" → p.content = "" → initEditorContent p = "") := by
  refine ⟨fun h => ?_, fun h1 h2 => ?_, fun h1 h2 => ?_⟩ <;>
    simp [initEditorContent, *]

/-- C10 witness: the three initialization cases evaluated on concrete
project records. -/
theorem C10_witness :
    initEditorContent ⟨"T", "A", "D", "GEN", "ORIG"⟩ = "GEN" ∧
    initEditorContent ⟨"T", "A", "D", "", "ORIG"⟩ = "ORIG" ∧
    initEditorContent ⟨"T", "A", "D", "", ""⟩ = "" :=
  ⟨(C10_editor_content_init ⟨"T", "A", "D", "GEN", "ORIG"⟩).1 (by decide),
   (C10_editor_content_init ⟨"T", "A", "D", "", "ORIG"⟩).2.1 rfl (by decide),
   (C10_editor_content_init ⟨"T", "A", "D", "", ""⟩).2.2 rfl rfl⟩

end Manuscriptify
